import Mathlib

/-!
Verification of the session booking and rating workflow of the
indian-folk-art-platform repository (routes/sessions router in
src/indian-folk-art-platform/routes/artists.js, models/Session.js and the
Artist model).

The embedding is shallow: the document store is a pair of lists (sessions,
artists); each Express handler becomes a pure function from a store state and
the authenticated caller to the next state together with an HTTP-style
response (Except over a status code and message).  JavaScript numbers that
carry times, durations and scores are modelled as rationals; Date values are
milliseconds since the epoch.  Audit timestamps (createdAt, updatedAt and the
pre-save hook that refreshes updatedAt) and display-only populated fields are
outside every claim considered here and are not part of the record model.
-/

namespace ArtCult

abbrev UserId := Nat
abbrev ArtistId := Nat
abbrev SessionId := Nat

/-- Roles attached by the auth middleware to req.user. -/
inductive Role
  | customer
  | artist
  | admin
deriving DecidableEq

/-- The status enum of sessionSchema (models/Session.js lines 60-64). -/
inductive SessionStatus
  | pending
  | confirmed
  | completed
  | cancelled
  | rescheduled
deriving DecidableEq

/-- The paymentStatus enum of sessionSchema (models/Session.js lines 65-69). -/
inductive PaymentStatus
  | pending
  | paid
  | refunded
  | failed
deriving DecidableEq

/-- The rating subdocument of sessionSchema (score, review, ratedAt). -/
structure Rating where
  score : ℚ
  review : Option String
  ratedAt : ℚ
deriving DecidableEq

/-- A SessionRecord as stored by models/Session.js.  scheduledDate is in
milliseconds since the epoch, duration in minutes. -/
structure SessionRecord where
  id : SessionId
  user : UserId
  artist : ArtistId
  sessionType : String
  title : String
  description : Option String
  scheduledDate : ℚ
  duration : ℚ
  format : String
  location : Option String
  pricingAmount : ℚ
  pricingCurrency : String
  status : SessionStatus
  paymentStatus : PaymentStatus
  rating : Option Rating
deriving DecidableEq

/-- The ratings aggregate on the Artist model (average default 0, count
default 0). -/
structure Ratings where
  average : ℚ
  count : Nat
deriving DecidableEq

/-- The slice of the Artist model the workflow reads and writes. -/
structure ArtistProfile where
  id : ArtistId
  user : UserId
  ratings : Ratings
deriving DecidableEq

/-- The document store: the Session collection and the Artist collection.
nextSessionId supplies the _id assigned by Session.create. -/
structure St where
  sessions : List SessionRecord
  artists : List ArtistProfile
  nextSessionId : SessionId
deriving DecidableEq

/-- The authenticated caller (req.user as set by the protect middleware). -/
structure Caller where
  id : UserId
  role : Role
deriving DecidableEq

/-- An HTTP failure response: status code plus message. -/
structure ErrResp where
  status : Nat
  message : String
deriving DecidableEq

/-- Session.findById. -/
def findSession (st : St) (sid : SessionId) : Option SessionRecord :=
  st.sessions.find? (fun s => decide (s.id = sid))

/-- Artist.findById. -/
def findArtistById (st : St) (aid : ArtistId) : Option ArtistProfile :=
  st.artists.find? (fun a => decide (a.id = aid))

/-- Artist.findOne with filter on the user field. -/
def findArtistByUser (st : St) (uid : UserId) : Option ArtistProfile :=
  st.artists.find? (fun a => decide (a.user = uid))

/-- The request body of POST /api/sessions.  The route destructures only
artistId, sessionType, title, description, scheduledDate, duration, format,
location and pricing (routes lines 423-433); reqStatus, reqPaymentStatus and
reqRating model extra keys a client may send, which the route never reads. -/
structure BookBody where
  artistId : ArtistId
  sessionType : String
  title : String
  description : Option String
  scheduledDate : ℚ
  duration : ℚ
  format : String
  location : Option String
  pricingAmount : ℚ
  pricingCurrency : Option String
  reqStatus : Option SessionStatus
  reqPaymentStatus : Option PaymentStatus
  reqRating : Option Rating
deriving DecidableEq

/-- The availability filter of the bookSession route (lines 445-452): an
existing record of the same artist whose scheduledDate lies in
[requested, requested + duration minutes) and whose status is pending or
confirmed. -/
def conflictMatch (aid : ArtistId) (reqDate dur : ℚ) (s : SessionRecord) : Bool :=
  decide (s.artist = aid) &&
  decide (reqDate ≤ s.scheduledDate) &&
  decide (s.scheduledDate < reqDate + dur * 60000) &&
  (decide (s.status = SessionStatus.pending) || decide (s.status = SessionStatus.confirmed))

/-- POST /api/sessions (routes lines 421-496).  Resolves the artist, runs the
availability query, then Session.create with the destructured fields only;
status, paymentStatus and rating take their schema defaults. -/
def bookSession (st : St) (caller : Caller) (b : BookBody) :
    St × Except ErrResp SessionRecord :=
  match findArtistById st b.artistId with
  | none => (st, Except.error ⟨404, "Artist not found"⟩)
  | some _ =>
    match st.sessions.find? (conflictMatch b.artistId b.scheduledDate b.duration) with
    | some _ => (st, Except.error ⟨400, "Artist is not available at the requested time"⟩)
    | none =>
      let record : SessionRecord :=
        { id := st.nextSessionId
          user := caller.id
          artist := b.artistId
          sessionType := b.sessionType
          title := b.title
          description := b.description
          scheduledDate := b.scheduledDate
          duration := b.duration
          format := b.format
          location := b.location
          pricingAmount := b.pricingAmount
          pricingCurrency := b.pricingCurrency.getD "INR"
          status := SessionStatus.pending
          paymentStatus := PaymentStatus.pending
          rating := none }
      ({ st with sessions := st.sessions ++ [record],
                 nextSessionId := st.nextSessionId + 1 },
       Except.ok record)

/-- Helper for optional query-filter fields: an absent field matches every
document. -/
def optMatches {α : Type} (o : Option α) (p : α → Bool) : Bool :=
  match o with
  | none => true
  | some x => p x

/-- The Mongo query object built by GET /api/sessions (routes lines 314-336):
an optional artist filter, an optional user filter, an optional status filter
and an optional lower bound on scheduledDate. -/
structure SessionQuery where
  artist : Option ArtistId
  user : Option UserId
  status : Option SessionStatus
  scheduledFrom : Option ℚ
deriving DecidableEq

/-- Query construction of GET /api/sessions: artist callers filter by their
artist profile when one exists (and add no filter otherwise); every other
caller filters by user; then the optional status and upcoming filters. -/
def listQuery (st : St) (caller : Caller) (status : Option SessionStatus)
    (upcoming : Bool) (now : ℚ) : SessionQuery :=
  let base : SessionQuery :=
    if caller.role = Role.artist then
      match findArtistByUser st caller.id with
      | some a => { artist := some a.id, user := none, status := none, scheduledFrom := none }
      | none => { artist := none, user := none, status := none, scheduledFrom := none }
    else
      { artist := none, user := some caller.id, status := none, scheduledFrom := none }
  { base with status := status, scheduledFrom := if upcoming then some now else none }

/-- Whether a stored session matches a SessionQuery. -/
def sessionMatches (q : SessionQuery) (s : SessionRecord) : Bool :=
  optMatches q.artist (fun aid => decide (s.artist = aid)) &&
  optMatches q.user (fun uid => decide (s.user = uid)) &&
  optMatches q.status (fun v => decide (s.status = v)) &&
  optMatches q.scheduledFrom (fun t => decide (t ≤ s.scheduledDate))

/-- Insertion step for the scheduledDate ascending sort of the list route. -/
def insertByDate (s : SessionRecord) : List SessionRecord → List SessionRecord
  | [] => [s]
  | t :: ts =>
    if s.scheduledDate ≤ t.scheduledDate then s :: t :: ts else t :: insertByDate s ts

/-- sort by scheduledDate ascending (the sort clause of the list route). -/
def sortByDate (l : List SessionRecord) : List SessionRecord :=
  l.foldr insertByDate []

/-- skip((page-1)*limit).limit(limit) pagination. -/
def paginate (l : List SessionRecord) (page limit : Nat) : List SessionRecord :=
  (l.drop ((page - 1) * limit)).take limit

/-- GET /api/sessions (routes lines 314-368): filter, sort ascending by
scheduledDate, paginate. -/
def listSessions (st : St) (caller : Caller) (status : Option SessionStatus)
    (upcoming : Bool) (now : ℚ) (page limit : Nat) : List SessionRecord :=
  paginate (sortByDate (st.sessions.filter (sessionMatches (listQuery st caller status upcoming now))))
    page limit

/-- The validStatuses list of PUT /api/sessions/:id/status (line 504) read as
a parser; membership in the list is exactly parse success. -/
def statusOfString (s : String) : Option SessionStatus :=
  if s = "pending" then some SessionStatus.pending
  else if s = "confirmed" then some SessionStatus.confirmed
  else if s = "completed" then some SessionStatus.completed
  else if s = "cancelled" then some SessionStatus.cancelled
  else if s = "rescheduled" then some SessionStatus.rescheduled
  else none

/-- PUT /api/sessions/:id/status (routes lines 501-559).  Validates the
requested status string, resolves the session, authorizes the booking
customer, the owning artist or an admin, then overwrites the status field and
saves; no other field of the record is written.  The route answers with the
record it just saved (re-read through findById). -/
def updateSessionStatus (st : St) (caller : Caller) (sid : SessionId)
    (statusStr : String) : St × Except ErrResp SessionRecord :=
  match statusOfString statusStr with
  | none => (st, Except.error ⟨400, "Invalid status"⟩)
  | some v =>
    match findSession st sid with
    | none => (st, Except.error ⟨404, "Session not found"⟩)
    | some session =>
      let artistOpt := findArtistByUser st caller.id
      let isOwner : Bool := decide (session.user = caller.id)
      let isArtist : Bool :=
        match artistOpt with
        | some a => decide (session.artist = a.id)
        | none => false
      let isAdmin : Bool := decide (caller.role = Role.admin)
      if isOwner || isArtist || isAdmin then
        ({ st with sessions := st.sessions.map (fun s =>
            if s.id = sid then { s with status := v } else s) },
         Except.ok { session with status := v })
      else
        (st, Except.error ⟨403, "Not authorized to update this session"⟩)

/-- JavaScript Math.round: round half toward positive infinity. -/
def jsRound (x : ℚ) : ℤ :=
  Int.floor (x + 1 / 2)

/-- Math.round(x * 10) / 10: rounding to one decimal place as done at routes
line 616. -/
def round1 (x : ℚ) : ℚ :=
  ((jsRound (x * 10) : ℚ)) / 10

/-- The aggregate scan of the rate route (lines 608-611): all sessions of the
artist whose rating.score path exists. -/
def ratedSessions (st : St) (aid : ArtistId) : List SessionRecord :=
  st.sessions.filter (fun s => decide (s.artist = aid) && s.rating.isSome)

/-- sessions.reduce((sum, s) => sum + s.rating.score, 0); the query guarantees
a rating is present, absent ratings contribute 0. -/
def ratingScoreSum (l : List SessionRecord) : ℚ :=
  (l.map (fun s =>
    match s.rating with
    | some r => r.score
    | none => 0)).sum

/-- session.save() of the rate route: persist the new rating subdocument onto
the record with the given id. -/
def setRating (st : St) (sid : SessionId) (score : ℚ) (review : Option String)
    (now : ℚ) : St :=
  { st with sessions := st.sessions.map (fun s =>
      if s.id = sid then { s with rating := some ⟨score, review, now⟩ } else s) }

/-- artist.save() of the rate route: persist the artist document carrying the
recomputed aggregate over the document with the same id. -/
def setArtistRatings (st : St) (aid : ArtistId) (a' : ArtistProfile) : St :=
  { st with artists := st.artists.map (fun a => if a.id = aid then a' else a) }

/-- PUT /api/sessions/:id/rate (routes lines 564-632), with the two awaited
saves made explicit: sessionSaveOk tells whether session.save() commits and
artistSaveOk whether artist.save() commits; a failed await raises into the
catch block, which answers 500 after whatever already committed stays
committed.  Checks run in route order: score range, session lookup, booking
customer, completed status; then the rating is written and saved, the artist
is fetched, the aggregate is recomputed over all rated sessions of that
artist and saved. -/
def rateSessionF (st : St) (caller : Caller) (sid : SessionId) (score : ℚ)
    (review : Option String) (now : ℚ) (sessionSaveOk artistSaveOk : Bool) :
    St × Except ErrResp SessionRecord :=
  if score < 1 ∨ score > 5 then
    (st, Except.error ⟨400, "Rating must be between 1 and 5"⟩)
  else
    match findSession st sid with
    | none => (st, Except.error ⟨404, "Session not found"⟩)
    | some session =>
      if session.user ≠ caller.id then
        (st, Except.error ⟨403, "Not authorized to rate this session"⟩)
      else if session.status ≠ SessionStatus.completed then
        (st, Except.error ⟨400, "Session must be completed before rating"⟩)
      else if sessionSaveOk = false then
        (st, Except.error ⟨500, "Server error"⟩)
      else
        let st1 := setRating st sid score review now
        match findArtistById st1 session.artist with
        | none => (st1, Except.error ⟨500, "Server error"⟩)
        | some artist =>
          if artistSaveOk = false then
            (st1, Except.error ⟨500, "Server error"⟩)
          else
            let rated := ratedSessions st1 session.artist
            let newRatings : Ratings :=
              ⟨round1 (ratingScoreSum rated / (rated.length : ℚ)), rated.length⟩
            (setArtistRatings st1 artist.id { artist with ratings := newRatings },
             Except.ok { session with rating := some ⟨score, review, now⟩ })

/-- PUT /api/sessions/:id/rate on the fault-free path: both saves commit. -/
def rateSession (st : St) (caller : Caller) (sid : SessionId) (score : ℚ)
    (review : Option String) (now : ℚ) : St × Except ErrResp SessionRecord :=
  rateSessionF st caller sid score review now true true

/-- One rate request, for reasoning about sequences of rate operations. -/
structure RateReq where
  caller : Caller
  sid : SessionId
  score : ℚ
  review : Option String
  now : ℚ
deriving DecidableEq

/-- Apply a sequence of rate requests, each against the state the previous
one left (failures answer an error but keep whatever state they committed). -/
def applyRateSeq (st : St) (ops : List RateReq) : St :=
  ops.foldl (fun s op => (rateSession s op.caller op.sid op.score op.review op.now).1) st

/-- The aggregate invariant for one artist document: count is the number of
rated sessions referencing the artist, average is their mean rounded to one
decimal place (an empty population yields the schema default 0 under the
division convention 0 / 0 = 0). -/
def aggregateCorrect (st : St) (a : ArtistProfile) : Prop :=
  a.ratings.count = (ratedSessions st a.id).length ∧
  a.ratings.average =
    round1 (ratingScoreSum (ratedSessions st a.id) / ((ratedSessions st a.id).length : ℚ))

/-- The store-wide aggregate invariant. -/
def ratingsInvariant (st : St) : Prop :=
  ∀ a ∈ st.artists, aggregateCorrect st a

/-- Document ids are unique in each collection, as the store guarantees for
the _id field. -/
def WfState (st : St) : Prop :=
  (st.sessions.map SessionRecord.id).Nodup ∧ (st.artists.map ArtistProfile.id).Nodup

/-- A JavaScript request-body value for the score field: a finite number, the
absent field (undefined), null, or any value whose numeric coercion is NaN
(NaN itself, a non-numeric string, an object). -/
inductive JSVal
  | num (q : ℚ)
  | undef
  | null
  | nonNumeric
deriving DecidableEq

/-- ToNumber coercion applied by the JavaScript relational operators; none is
NaN (undefined coerces to NaN, null to 0). -/
def jsToNumber : JSVal → Option ℚ
  | JSVal.num q => some q
  | JSVal.undef => none
  | JSVal.null => some 0
  | JSVal.nonNumeric => none

/-- JavaScript v < c against a number literal: false whenever either side
coerces to NaN. -/
def jsLtNum (v : JSVal) (c : ℚ) : Bool :=
  match jsToNumber v with
  | some x => decide (x < c)
  | none => false

/-- JavaScript v > c against a number literal: false whenever either side
coerces to NaN. -/
def jsGtNum (v : JSVal) (c : ℚ) : Bool :=
  match jsToNumber v with
  | some x => decide (c < x)
  | none => false

/-- Which check of the rate route fires first, up to the write at line 599. -/
inductive RateGate
  | invalidArgument
  | notFound
  | forbidden
  | invalidState
  | proceed
deriving DecidableEq

/-- The guard sequence of PUT /api/sessions/:id/rate (routes lines 566-597)
with the score taken as a raw JavaScript value, exactly as the route receives
it from the request body: the range check is the loose comparison
score < 1 || score > 5, then the lookup, authorization and status checks,
none of which reads the score. -/
def rateGateJS (st : St) (caller : Caller) (sid : SessionId) (score : JSVal) :
    RateGate :=
  if jsLtNum score 1 || jsGtNum score 5 then
    RateGate.invalidArgument
  else
    match findSession st sid with
    | none => RateGate.notFound
    | some session =>
      if session.user ≠ caller.id then RateGate.forbidden
      else if session.status ≠ SessionStatus.completed then RateGate.invalidState
      else RateGate.proceed

/-! ### Concrete example stores used by the claim witnesses -/

def c3St : St :=
  ⟨[], [⟨1, 100, ⟨0, 0⟩⟩], 7⟩

def c3Caller : Caller := ⟨200, Role.customer⟩

/-- A booking body that even smuggles status, paymentStatus and rating keys. -/
def c3Body : BookBody :=
  ⟨1, "lesson", "Warli basics", some "intro", 1704880800000, 60, "online", none,
    500, none, some SessionStatus.confirmed, some PaymentStatus.paid,
    some ⟨5, some "great", 0⟩⟩

def c3Record : SessionRecord :=
  ⟨7, 200, 1, "lesson", "Warli basics", some "intro", 1704880800000, 60,
    "online", none, 500, "INR", SessionStatus.pending, PaymentStatus.pending, none⟩

def c10St : St :=
  ⟨[⟨1, 200, 1, "lesson", "Warli basics", none, 1704880800000, 60, "online",
      none, 500, "INR", SessionStatus.completed, PaymentStatus.paid, none⟩],
   [⟨1, 100, ⟨0, 0⟩⟩], 2⟩

def c4St : St :=
  ⟨[⟨1, 200, 1, "lesson", "Warli basics", none, 1704880800000, 60, "online",
      none, 500, "INR", SessionStatus.confirmed, PaymentStatus.pending, none⟩],
   [⟨1, 100, ⟨0, 0⟩⟩], 2⟩

def c4Caller : Caller := ⟨200, Role.customer⟩

def c4Sess : SessionRecord :=
  ⟨1, 200, 1, "lesson", "Warli basics", none, 1704880800000, 60, "online",
    none, 500, "INR", SessionStatus.confirmed, PaymentStatus.pending, none⟩

def c5St : St :=
  ⟨[⟨1, 200, 1, "lesson", "Warli basics", none, 1704880800000, 60, "online",
      none, 500, "INR", SessionStatus.completed, PaymentStatus.paid, none⟩],
   [⟨1, 100, ⟨0, 0⟩⟩], 2⟩

def c5Sess : SessionRecord :=
  ⟨1, 200, 1, "lesson", "Warli basics", none, 1704880800000, 60, "online",
    none, 500, "INR", SessionStatus.completed, PaymentStatus.paid, none⟩

def c6St : St :=
  ⟨[⟨1, 200, 1, "lesson", "Warli basics", none, 1704880800000, 60, "online",
      none, 500, "INR", SessionStatus.cancelled, PaymentStatus.refunded,
      some ⟨3, none, 0⟩⟩],
   [⟨1, 100, ⟨3, 1⟩⟩], 2⟩

def c6Sess : SessionRecord :=
  ⟨1, 200, 1, "lesson", "Warli basics", none, 1704880800000, 60, "online",
    none, 500, "INR", SessionStatus.cancelled, PaymentStatus.refunded,
    some ⟨3, none, 0⟩⟩

def c7St : St :=
  ⟨[⟨1, 200, 1, "lesson", "Warli basics", none, 1704880800000, 60, "online",
      none, 500, "INR", SessionStatus.completed, PaymentStatus.paid,
      some ⟨2, some "meh", 1704967200000⟩⟩],
   [⟨1, 100, ⟨2, 1⟩⟩], 2⟩

def c7Sess : SessionRecord :=
  ⟨1, 200, 1, "lesson", "Warli basics", none, 1704880800000, 60, "online",
    none, 500, "INR", SessionStatus.completed, PaymentStatus.paid,
    some ⟨2, some "meh", 1704967200000⟩⟩

def c1Artist : ArtistProfile := ⟨1, 100, ⟨0, 0⟩⟩

/-- An existing pending booking at 2024-01-10 10:00 UTC for 60 minutes. -/
def c1Existing : SessionRecord :=
  ⟨1, 200, 1, "lesson", "Morning lesson", none, 1704880800000, 60, "online",
    none, 500, "INR", SessionStatus.pending, PaymentStatus.pending, none⟩

def c1St : St := ⟨[c1Existing], [c1Artist], 2⟩

def c1Caller : Caller := ⟨300, Role.customer⟩

/-- A second booking request at 10:30 for 60 minutes against the same
artist. -/
def c1Body1030 : BookBody :=
  ⟨1, "lesson", "Overlap attempt", none, 1704882600000, 60, "online", none,
    500, none, none, none, none⟩

/-- The record the 10:30 request creates. -/
def c1Created : SessionRecord :=
  ⟨2, 300, 1, "lesson", "Overlap attempt", none, 1704882600000, 60, "online",
    none, 500, "INR", SessionStatus.pending, PaymentStatus.pending, none⟩

def c9St : St :=
  ⟨[⟨1, 200, 1, "lesson", "Warli basics", none, 1704880800000, 60, "online",
      none, 500, "INR", SessionStatus.pending, PaymentStatus.pending, none⟩,
    ⟨2, 201, 2, "workshop", "Gond workshop", none, 1704967200000, 90,
      "in-person", none, 900, "INR", SessionStatus.confirmed,
      PaymentStatus.paid, none⟩],
   [⟨1, 100, ⟨0, 0⟩⟩, ⟨2, 101, ⟨0, 0⟩⟩], 3⟩

def c8St : St :=
  ⟨[⟨1, 200, 1, "lesson", "Warli basics", none, 1704880800000, 60, "online",
      none, 500, "INR", SessionStatus.completed, PaymentStatus.paid, none⟩],
   [⟨1, 100, ⟨0, 0⟩⟩], 2⟩

/-- The state after the session save commits: the rating subdocument is on
the session, the artist aggregate still reads (0, 0). -/
def c8StAfter : St :=
  ⟨[⟨1, 200, 1, "lesson", "Warli basics", none, 1704880800000, 60, "online",
      none, 500, "INR", SessionStatus.completed, PaymentStatus.paid,
      some ⟨5, none, 1704967200000⟩⟩],
   [⟨1, 100, ⟨0, 0⟩⟩], 2⟩

def c2St : St :=
  ⟨[⟨1, 200, 1, "lesson", "Warli basics", none, 0, 60, "online",
      none, 500, "INR", SessionStatus.completed, PaymentStatus.paid, none⟩,
    ⟨2, 200, 1, "lesson", "Warli colours", none, 100, 60, "online",
      none, 500, "INR", SessionStatus.completed, PaymentStatus.paid, none⟩],
   [⟨1, 100, ⟨0, 0⟩⟩], 3⟩

def c2Ops : List RateReq :=
  [⟨⟨200, Role.customer⟩, 1, 4, none, 0⟩, ⟨⟨200, Role.customer⟩, 2, 5, none, 0⟩]

/-! ### Helper lemmas -/

/-- Filtering after a map that either fixes an element or keeps it (and its
image) out of the filter gives the same list as filtering directly. -/
lemma filter_map_eq_of {α : Type} (l : List α) (f : α → α) (q : α → Bool)
    (h : ∀ x ∈ l, f x = x ∨ (q x = false ∧ q (f x) = false)) :
    (l.map f).filter q = l.filter q := by
  induction l with
  | nil => rfl
  | cons x xs ih =>
    have hx := h x (List.mem_cons_self x xs)
    have hxs : ∀ y ∈ xs, f y = y ∨ (q y = false ∧ q (f y) = false) :=
      fun y hy => h y (List.mem_cons_of_mem x hy)
    rcases hx with hfx | ⟨hqx, hqfx⟩
    · simp only [List.map_cons, List.filter_cons, hfx, ih hxs]
    · simp only [List.map_cons, List.filter_cons, hqx, hqfx, Bool.false_eq_true,
        if_false, ih hxs]

/-- Characterize jsRound by the usual floor bracketing. -/
lemma jsRound_eq (x : ℚ) (n : ℤ) (h1 : (n : ℚ) ≤ x + 1 / 2)
    (h2 : x + 1 / 2 < n + 1) : jsRound x = n := by
  unfold jsRound
  exact Int.floor_eq_iff.mpr ⟨h1, h2⟩

/-- Evaluate round1 at a concrete rational from the floor bracketing. -/
lemma round1_eq (x : ℚ) (n : ℤ) (h1 : (n : ℚ) ≤ x * 10 + 1 / 2)
    (h2 : x * 10 + 1 / 2 < n + 1) : round1 x = (n : ℚ) / 10 := by
  unfold round1
  rw [jsRound_eq (x * 10) n h1 h2]

/-- setRating does not touch the artist collection. -/
lemma setRating_artists (st : St) (sid : SessionId) (score : ℚ)
    (review : Option String) (now : ℚ) :
    (setRating st sid score review now).artists = st.artists := rfl

/-- setRating preserves the list of session ids. -/
lemma setRating_map_id (st : St) (sid : SessionId) (score : ℚ)
    (review : Option String) (now : ℚ) :
    (setRating st sid score review now).sessions.map SessionRecord.id =
      st.sessions.map SessionRecord.id := by
  unfold setRating
  rw [List.map_map]
  apply List.map_congr_left
  intro s _
  by_cases h : s.id = sid <;> simp [h]

/-- A found session is a member and carries the looked-up id. -/
lemma findSession_spec {st : St} {sid : SessionId} {session : SessionRecord}
    (h : findSession st sid = some session) :
    session ∈ st.sessions ∧ session.id = sid := by
  refine ⟨List.mem_of_find?_eq_some h, ?_⟩
  have := List.find?_some h
  simpa using this

/-- A found artist is a member and carries the looked-up id. -/
lemma findArtistById_spec {st : St} {aid : ArtistId} {a : ArtistProfile}
    (h : findArtistById st aid = some a) :
    a ∈ st.artists ∧ a.id = aid := by
  refine ⟨List.mem_of_find?_eq_some h, ?_⟩
  have := List.find?_some h
  simpa using this

/-- If no artist document has the given id, every member misses it. -/
lemma findArtistById_none {st : St} {aid : ArtistId}
    (h : findArtistById st aid = none) :
    ∀ a ∈ st.artists, a.id ≠ aid := by
  intro a ha
  have := List.find?_eq_none.mp h a ha
  simpa using this

/-- Writing a rating onto the session with id sid leaves the rated-session
scan of every other artist unchanged, when session ids are unique. -/
lemma ratedSessions_setRating_ne (st : St) (sid : SessionId) (score : ℚ)
    (review : Option String) (now : ℚ)
    (hnodup : (st.sessions.map SessionRecord.id).Nodup)
    {session : SessionRecord} (hfind : findSession st sid = some session)
    {aid : ArtistId} (hne : session.artist ≠ aid) :
    ratedSessions (setRating st sid score review now) aid = ratedSessions st aid := by
  unfold ratedSessions setRating
  apply filter_map_eq_of
  intro s hs
  by_cases hid : s.id = sid
  · right
    obtain ⟨hmem, hsid⟩ := findSession_spec hfind
    have hseq : s = session :=
      List.inj_on_of_nodup_map hnodup hs hmem (by rw [hid, hsid])
    subst hseq
    constructor
    · simp [hne]
    · simp [hid, hne]
  · left
    simp [hid]

/-! ### C3 -/

/-- C3: every successful bookSession call creates a SessionRecord with
status pending, paymentStatus pending and no rating, whatever the request
body contained. -/
theorem bookSession_defaults (st : St) (caller : Caller) (b : BookBody)
    (r : SessionRecord) (h : (bookSession st caller b).2 = Except.ok r) :
    r.status = SessionStatus.pending ∧ r.paymentStatus = PaymentStatus.pending ∧
    r.rating = none := by
  unfold bookSession at h
  cases hfa : findArtistById st b.artistId with
  | none => rw [hfa] at h; simp at h
  | some a =>
    rw [hfa] at h
    cases hconf : st.sessions.find? (conflictMatch b.artistId b.scheduledDate b.duration) with
    | some s => rw [hconf] at h; simp at h
    | none =>
      rw [hconf] at h
      simp only [Except.ok.injEq] at h
      rw [← h]
      exact ⟨rfl, rfl, rfl⟩

theorem bookSession_defaults_witness :
    (bookSession c3St c3Caller c3Body).2 = Except.ok c3Record ∧
    (c3Record.status = SessionStatus.pending ∧
      c3Record.paymentStatus = PaymentStatus.pending ∧ c3Record.rating = none) :=
  ⟨rfl, bookSession_defaults c3St c3Caller c3Body c3Record rfl⟩

/-! ### C10 -/

/-- C10: the InvalidArgument rejection of the rate route fires exactly when
the JavaScript comparison score < 1 || score > 5 is true; an absent
(undefined) or non-numeric score coerces to NaN, passes the guard, and the
call behaves at the gate exactly like one with an in-range numeric score,
reaching the lookup, authorization and status checks. -/
theorem rateGateJS_guard (st : St) (caller : Caller) (sid : SessionId)
    (score : JSVal) :
    (rateGateJS st caller sid score = RateGate.invalidArgument ↔
      (jsLtNum score 1 || jsGtNum score 5) = true) ∧
    (jsToNumber score = none →
      rateGateJS st caller sid score = rateGateJS st caller sid (JSVal.num 3)) := by
  constructor
  · constructor
    · intro h
      by_contra hg
      unfold rateGateJS at h
      rw [if_neg hg] at h
      split at h
      · exact RateGate.noConfusion h
      · split at h
        · exact RateGate.noConfusion h
        · split at h
          · exact RateGate.noConfusion h
          · exact RateGate.noConfusion h
    · intro h
      unfold rateGateJS
      rw [h]
      simp
  · intro hnan
    have h1 : jsLtNum score 1 = false := by unfold jsLtNum; rw [hnan]
    have h5 : jsGtNum score 5 = false := by unfold jsGtNum; rw [hnan]
    have h3a : jsLtNum (JSVal.num 3) 1 = false := by decide
    have h3b : jsGtNum (JSVal.num 3) 5 = false := by decide
    unfold rateGateJS
    rw [h1, h5, h3a, h3b]

/-- An admin with an absent score field is not rejected by the range guard:
the call proceeds and the authorization check answers instead. -/
theorem rateGateJS_guard_witness :
    (rateGateJS c10St ⟨999, Role.admin⟩ 1 JSVal.undef = RateGate.invalidArgument ↔
      (jsLtNum JSVal.undef 1 || jsGtNum JSVal.undef 5) = true) ∧
    (rateGateJS c10St ⟨999, Role.admin⟩ 1 JSVal.undef =
      rateGateJS c10St ⟨999, Role.admin⟩ 1 (JSVal.num 3)) ∧
    rateGateJS c10St ⟨999, Role.admin⟩ 1 JSVal.undef = RateGate.forbidden :=
  ⟨(rateGateJS_guard c10St ⟨999, Role.admin⟩ 1 JSVal.undef).1,
   (rateGateJS_guard c10St ⟨999, Role.admin⟩ 1 JSVal.undef).2 rfl,
   rfl⟩

/-! ### C4 -/

/-- C4: the rate route rejects any score outside [1,5] with status 400 and
the message about the 1-to-5 range, before anything else is consulted; and a
call that reaches the status check (valid score, existing session, caller is
the booking customer) against a session that is not completed answers 400
with the completed-before-rating message.  Both rejections leave the store
untouched.  The guards run in route order: score range, lookup,
authorization, status. -/
theorem rateSession_guards (st : St) (caller : Caller) (sid : SessionId)
    (score : ℚ) (review : Option String) (now : ℚ) :
    ((score < 1 ∨ score > 5) →
      rateSession st caller sid score review now =
        (st, Except.error ⟨400, "Rating must be between 1 and 5"⟩)) ∧
    (∀ session, findSession st sid = some session → session.user = caller.id →
      ¬(score < 1 ∨ score > 5) → session.status ≠ SessionStatus.completed →
      rateSession st caller sid score review now =
        (st, Except.error ⟨400, "Session must be completed before rating"⟩)) := by
  constructor
  · intro h
    unfold rateSession rateSessionF
    rw [if_pos h]
  · intro session hfind huser hscore hstatus
    unfold rateSession rateSessionF
    rw [if_neg hscore]
    simp only [hfind]
    have huser' : ¬session.user ≠ caller.id := fun hne => hne huser
    rw [if_neg huser', if_pos hstatus]

theorem rateSession_guards_witness :
    (rateSession c4St c4Caller 1 0 none 0 =
      (c4St, Except.error ⟨400, "Rating must be between 1 and 5"⟩)) ∧
    (rateSession c4St c4Caller 1 6 none 0 =
      (c4St, Except.error ⟨400, "Rating must be between 1 and 5"⟩)) ∧
    (rateSession c4St c4Caller 1 4 none 0 =
      (c4St, Except.error ⟨400, "Session must be completed before rating"⟩)) :=
  ⟨(rateSession_guards c4St c4Caller 1 0 none 0).1 (by norm_num),
   (rateSession_guards c4St c4Caller 1 6 none 0).1 (by norm_num),
   (rateSession_guards c4St c4Caller 1 4 none 0).2 c4Sess rfl rfl (by norm_num)
     (by decide)⟩

/-! ### C5 -/

/-- C5: the rate route succeeds only for the booking customer: a successful
answer implies the resolved session belongs to the caller; and any caller who
is not the booking customer, whatever the role (artist, admin, anyone), gets
status 403 once the score guard passes and the session resolves, with the
store untouched. -/
theorem rateSession_customer_only (st : St) (caller : Caller) (sid : SessionId)
    (score : ℚ) (review : Option String) (now : ℚ) :
    (∀ st2 r, rateSession st caller sid score review now = (st2, Except.ok r) →
      ∃ session, findSession st sid = some session ∧ session.user = caller.id) ∧
    (∀ session, findSession st sid = some session → ¬(score < 1 ∨ score > 5) →
      session.user ≠ caller.id →
      rateSession st caller sid score review now =
        (st, Except.error ⟨403, "Not authorized to rate this session"⟩)) := by
  constructor
  · intro st2 r h
    unfold rateSession rateSessionF at h
    by_cases hscore : score < 1 ∨ score > 5
    · rw [if_pos hscore] at h
      simp at h
    · rw [if_neg hscore] at h
      cases hfind : findSession st sid with
      | none => simp only [hfind] at h; simp at h
      | some session =>
        simp only [hfind] at h
        refine ⟨session, rfl, ?_⟩
        by_cases huser : session.user ≠ caller.id
        · rw [if_pos huser] at h; simp at h
        · exact not_not.mp huser
  · intro session hfind hscore huser
    unfold rateSession rateSessionF
    rw [if_neg hscore]
    simp only [hfind]
    rw [if_pos huser]

/-- The owning artist (user 100, the user behind artist profile 1) and an
admin both receive 403 on a completed session booked by user 200. -/
theorem rateSession_customer_only_witness :
    (rateSession c5St ⟨100, Role.artist⟩ 1 4 none 0 =
      (c5St, Except.error ⟨403, "Not authorized to rate this session"⟩)) ∧
    (rateSession c5St ⟨300, Role.admin⟩ 1 4 none 0 =
      (c5St, Except.error ⟨403, "Not authorized to rate this session"⟩)) :=
  ⟨(rateSession_customer_only c5St ⟨100, Role.artist⟩ 1 4 none 0).2 c5Sess rfl
      (by norm_num) (by decide),
   (rateSession_customer_only c5St ⟨300, Role.admin⟩ 1 4 none 0).2 c5Sess rfl
      (by norm_num) (by decide)⟩

/-! ### C6 -/

/-- C6: for an authorized caller (booking customer, owning artist or admin)
and a requested status in the valid list, the status route overwrites the
status field with the requested value whatever the current value was, writes
nothing else on the record (paymentStatus and rating are untouched, on the
answered record and on every stored record), and leaves the artist
collection alone. -/
theorem updateSessionStatus_overwrite (st : St) (caller : Caller)
    (sid : SessionId) (statusStr : String) (v : SessionStatus)
    (session : SessionRecord)
    (hv : statusOfString statusStr = some v)
    (hfind : findSession st sid = some session)
    (hauth : session.user = caller.id ∨
      (∃ a, findArtistByUser st caller.id = some a ∧ session.artist = a.id) ∨
      caller.role = Role.admin) :
    updateSessionStatus st caller sid statusStr =
      ({ st with sessions := st.sessions.map (fun s =>
          if s.id = sid then { s with status := v } else s) },
       Except.ok { session with status := v }) ∧
    ({ session with status := v }).paymentStatus = session.paymentStatus ∧
    ({ session with status := v }).rating = session.rating ∧
    (∀ s : SessionRecord,
      (if s.id = sid then { s with status := v } else s).paymentStatus =
        s.paymentStatus ∧
      (if s.id = sid then { s with status := v } else s).rating = s.rating) := by
  refine ⟨?_, rfl, rfl, fun s => by by_cases h : s.id = sid <;> simp [h]⟩
  unfold updateSessionStatus
  simp only [hv, hfind]
  have hguard : (decide (session.user = caller.id) ||
      (match findArtistByUser st caller.id with
       | some a => decide (session.artist = a.id)
       | none => false) ||
      decide (caller.role = Role.admin)) = true := by
    rcases hauth with h | ⟨a, ha, he⟩ | h
    · simp [h]
    · simp only [ha]
      simp [he]
    · simp [h]
  rw [if_pos hguard]

/-- An admin moves a cancelled session straight to completed: no transition
table fires, payment and rating fields stay. -/
theorem updateSessionStatus_overwrite_witness :
    updateSessionStatus c6St ⟨300, Role.admin⟩ 1 "completed" =
      ({ c6St with sessions := c6St.sessions.map (fun s =>
          if s.id = 1 then { s with status := SessionStatus.completed } else s) },
       Except.ok { c6Sess with status := SessionStatus.completed }) ∧
    ({ c6Sess with status := SessionStatus.completed }).paymentStatus =
      c6Sess.paymentStatus ∧
    ({ c6Sess with status := SessionStatus.completed }).rating = c6Sess.rating :=
  ⟨(updateSessionStatus_overwrite c6St ⟨300, Role.admin⟩ 1 "completed"
      SessionStatus.completed c6Sess rfl rfl (Or.inr (Or.inr rfl))).1,
   (updateSessionStatus_overwrite c6St ⟨300, Role.admin⟩ 1 "completed"
      SessionStatus.completed c6Sess rfl rfl (Or.inr (Or.inr rfl))).2.1,
   (updateSessionStatus_overwrite c6St ⟨300, Role.admin⟩ 1 "completed"
      SessionStatus.completed c6Sess rfl rfl (Or.inr (Or.inr rfl))).2.2.1⟩

/-! ### C7 -/

/-- C7: a second rating of a completed session by the booking customer with a
valid score succeeds and silently replaces the stored rating subdocument
(score, review, ratedAt); no already-rated guard exists. -/
theorem rateSession_rerate_overwrites (st : St) (caller : Caller)
    (sid : SessionId) (score : ℚ) (review : Option String) (now : ℚ)
    (session : SessionRecord) (oldR : Rating) (artist : ArtistProfile)
    (hfind : findSession st sid = some session)
    (huser : session.user = caller.id)
    (hstatus : session.status = SessionStatus.completed)
    (_hold : session.rating = some oldR)
    (hscore : ¬(score < 1 ∨ score > 5))
    (hart : findArtistById st session.artist = some artist) :
    (rateSession st caller sid score review now).2 =
      Except.ok { session with rating := some ⟨score, review, now⟩ } := by
  unfold rateSession rateSessionF
  rw [if_neg hscore]
  simp only [hfind]
  have huser' : ¬session.user ≠ caller.id := fun hne => hne huser
  have hstatus' : ¬session.status ≠ SessionStatus.completed := fun hne => hne hstatus
  rw [if_neg huser', if_neg hstatus']
  have hart1 : findArtistById (setRating st sid score review now) session.artist =
      some artist := hart
  simp only [Bool.true_eq_false, if_false, hart1]

/-- Re-rating the already-rated completed session with score 5 succeeds and
replaces the old score-2 rating. -/
theorem rateSession_rerate_overwrites_witness :
    (rateSession c7St ⟨200, Role.customer⟩ 1 5 (some "better") 1705053600000).2 =
      Except.ok { c7Sess with
        rating := some ⟨5, some "better", 1705053600000⟩ } :=
  rateSession_rerate_overwrites c7St ⟨200, Role.customer⟩ 1 5 (some "better")
    1705053600000 c7Sess ⟨2, some "meh", 1704967200000⟩ ⟨1, 100, ⟨2, 1⟩⟩
    rfl rfl rfl rfl (by norm_num) rfl

/-! ### C1 -/

/-- C1 counterexample: with a pending 10:00-for-60-minutes booking in store,
the 10:30-for-60-minutes request against the same artist genuinely overlaps
it ([10:00,11:00) meets [10:30,11:30)), yet bookSession does not answer the
Conflict error: it succeeds and creates the record, because the availability
query only looks for existing records whose start time lies inside the new
request window. -/
theorem bookSession_overlap_counterexample :
    c1Existing.status = SessionStatus.pending ∧
    c1Existing.artist = c1Body1030.artistId ∧
    c1Existing.scheduledDate <
      c1Body1030.scheduledDate + c1Body1030.duration * 60000 ∧
    c1Body1030.scheduledDate <
      c1Existing.scheduledDate + c1Existing.duration * 60000 ∧
    (bookSession c1St c1Caller c1Body1030).2 = Except.ok c1Created ∧
    (bookSession c1St c1Caller c1Body1030).2 ≠
      Except.error ⟨400, "Artist is not available at the requested time"⟩ := by
  refine ⟨rfl, rfl, by norm_num [c1Existing, c1Body1030],
    by norm_num [c1Existing, c1Body1030], rfl, ?_⟩
  intro h
  have : Except.ok c1Created =
      (Except.error ⟨400, "Artist is not available at the requested time"⟩ :
        Except ErrResp SessionRecord) := h
  exact Except.noConfusion this

/-- C1 amended: when the artist resolves, bookSession answers the Conflict
error exactly when some existing pending or confirmed session of that artist
has its start time inside the half-open requested window
[scheduledDate, scheduledDate + duration minutes); an existing session that
merely extends into the requested window is not detected. -/
theorem bookSession_conflict_iff (st : St) (caller : Caller) (b : BookBody)
    (a : ArtistProfile) (hart : findArtistById st b.artistId = some a) :
    (bookSession st caller b).2 =
      Except.error ⟨400, "Artist is not available at the requested time"⟩ ↔
    ∃ s ∈ st.sessions, s.artist = b.artistId ∧
      (s.status = SessionStatus.pending ∨ s.status = SessionStatus.confirmed) ∧
      b.scheduledDate ≤ s.scheduledDate ∧
      s.scheduledDate < b.scheduledDate + b.duration * 60000 := by
  unfold bookSession
  simp only [hart]
  cases hfind : st.sessions.find? (conflictMatch b.artistId b.scheduledDate b.duration) with
  | some s =>
    simp only [hfind]
    constructor
    · intro _
      refine ⟨s, List.mem_of_find?_eq_some hfind, ?_⟩
      have hp := List.find?_some hfind
      unfold conflictMatch at hp
      simp only [Bool.and_eq_true, Bool.or_eq_true, decide_eq_true_eq] at hp
      exact ⟨hp.1.1.1, hp.2, hp.1.1.2, hp.1.2⟩
    · intro _
      trivial
  | none =>
    simp only [hfind]
    constructor
    · intro h
      exact Except.noConfusion h
    · rintro ⟨s, hs, hsa, hsst, hlo, hhi⟩
      exfalso
      have := List.find?_eq_none.mp hfind s hs
      apply this
      unfold conflictMatch
      simp only [Bool.and_eq_true, Bool.or_eq_true, decide_eq_true_eq]
      exact ⟨⟨⟨hsa, hlo⟩, hhi⟩, hsst⟩

/-- A request at 09:30 for 60 minutes is refused: the existing 10:00 start
lies inside [09:30,10:30). -/
theorem bookSession_conflict_iff_witness :
    (bookSession c1St c1Caller
      ⟨1, "lesson", "Early attempt", none, 1704879000000, 60, "online", none,
        500, none, none, none, none⟩).2 =
      Except.error ⟨400, "Artist is not available at the requested time"⟩ :=
  (bookSession_conflict_iff c1St c1Caller
    ⟨1, "lesson", "Early attempt", none, 1704879000000, 60, "online", none,
      500, none, none, none, none⟩ c1Artist rfl).mpr
    ⟨c1Existing, List.mem_cons_self c1Existing [], rfl, Or.inl rfl,
      by norm_num [c1Existing], by norm_num [c1Existing]⟩

/-! ### C9 -/

/-- C9: an authenticated caller with role artist but no ArtistProfile
document, listing sessions with no status and no upcoming filter, produces an
empty query object; the filter then keeps every stored SessionRecord, so the
returned page is drawn from all sessions of all users and artists, not from
the caller's own. -/
theorem listSessions_artist_without_profile (st : St) (caller : Caller)
    (now : ℚ) (hrole : caller.role = Role.artist)
    (hnone : findArtistByUser st caller.id = none) :
    listQuery st caller none false now = ⟨none, none, none, none⟩ ∧
    st.sessions.filter (sessionMatches (listQuery st caller none false now)) =
      st.sessions ∧
    ∀ page limit, listSessions st caller none false now page limit =
      paginate (sortByDate st.sessions) page limit := by
  have hq : listQuery st caller none false now = ⟨none, none, none, none⟩ := by
    unfold listQuery
    rw [if_pos hrole]
    simp only [hnone]
    rfl
  have hf : st.sessions.filter (sessionMatches (listQuery st caller none false now)) =
      st.sessions := by
    rw [hq]
    apply List.filter_eq_self.mpr
    intro s _
    rfl
  refine ⟨hq, hf, fun page limit => ?_⟩
  unfold listSessions
  rw [hf]

/-- User 555 has role artist but no artist profile; the list call surfaces
both stored sessions, which belong to users 200 and 201 and artists 1 and
2. -/
theorem listSessions_artist_without_profile_witness :
    c9St.sessions.filter
      (sessionMatches (listQuery c9St ⟨555, Role.artist⟩ none false 0)) =
      c9St.sessions ∧
    listSessions c9St ⟨555, Role.artist⟩ none false 0 1 10 =
      paginate (sortByDate c9St.sessions) 1 10 :=
  ⟨(listSessions_artist_without_profile c9St ⟨555, Role.artist⟩ 0 rfl rfl).2.1,
   (listSessions_artist_without_profile c9St ⟨555, Role.artist⟩ 0 rfl rfl).2.2 1 10⟩

/-! ### C8 -/

/-- C8 counterexample: rating the completed session with score 5 while the
artist-aggregate save fails answers the Internal failure (500), yet the
session collection already carries the new rating while the artist aggregate
still reads (0, 0): exactly the partial write the claim rules out, at a
concrete input. -/
theorem rateSession_partial_write_counterexample :
    rateSessionF c8St ⟨200, Role.customer⟩ 1 5 none 1704967200000 true false =
      (c8StAfter, Except.error ⟨500, "Server error"⟩) ∧
    c8StAfter.sessions ≠ c8St.sessions ∧
    c8StAfter.artists = c8St.artists := by
  refine ⟨rfl, ?_, rfl⟩
  intro h
  simp [c8StAfter, c8St] at h

/-- C8 amended: failures of the rate route are atomic only up to the session
save: an error raised before the session save leaves the store untouched,
but when the artist-aggregate save fails after the session save committed,
the route answers the Internal failure while the session keeps its new
rating and the artist collection keeps its stale aggregate — the partial
write is exposed. -/
theorem rateSessionF_artist_save_failure (st : St) (caller : Caller)
    (sid : SessionId) (score : ℚ) (review : Option String) (now : ℚ)
    (session : SessionRecord)
    (hfind : findSession st sid = some session)
    (huser : session.user = caller.id)
    (hstatus : session.status = SessionStatus.completed)
    (hscore : ¬(score < 1 ∨ score > 5)) :
    rateSessionF st caller sid score review now true false =
      (setRating st sid score review now, Except.error ⟨500, "Server error"⟩) ∧
    (setRating st sid score review now).artists = st.artists ∧
    (setRating st sid score review now).sessions =
      st.sessions.map (fun s =>
        if s.id = sid then { s with rating := some ⟨score, review, now⟩ } else s) := by
  refine ⟨?_, rfl, rfl⟩
  unfold rateSessionF
  rw [if_neg hscore]
  simp only [hfind]
  have huser' : ¬session.user ≠ caller.id := fun hne => hne huser
  have hstatus' : ¬session.status ≠ SessionStatus.completed := fun hne => hne hstatus
  rw [if_neg huser', if_neg hstatus']
  simp only [Bool.true_eq_false, if_false]
  cases hart : findArtistById (setRating st sid score review now) session.artist with
  | none => simp only [hart]
  | some artist =>
    simp only [hart]
    rfl

theorem rateSessionF_artist_save_failure_witness :
    rateSessionF c8St ⟨201, Role.customer⟩ 999 4 none 0 true false =
      (setRating c8St 999 4 none 0, Except.error ⟨500, "Server error"⟩) ∨
    rateSessionF c8St ⟨200, Role.customer⟩ 1 4 none 0 true false =
      (setRating c8St 1 4 none 0, Except.error ⟨500, "Server error"⟩) :=
  Or.inr (rateSessionF_artist_save_failure c8St ⟨200, Role.customer⟩ 1 4 none 0
    ⟨1, 200, 1, "lesson", "Warli basics", none, 1704880800000, 60, "online",
      none, 500, "INR", SessionStatus.completed, PaymentStatus.paid, none⟩
    rfl rfl rfl (by norm_num)).1

/-! ### C2 -/

/-- Saving an artist document does not touch the session collection. -/
lemma setArtistRatings_sessions (st : St) (aid : ArtistId) (a' : ArtistProfile) :
    (setArtistRatings st aid a').sessions = st.sessions := rfl

/-- The artist collection after an artist save. -/
lemma setArtistRatings_artists (st : St) (aid : ArtistId) (a' : ArtistProfile) :
    (setArtistRatings st aid a').artists =
      st.artists.map (fun a => if a.id = aid then a' else a) := rfl

/-- The rated-session scan only reads the session collection, which an artist
save leaves alone. -/
lemma ratedSessions_setArtistRatings (st : St) (aid : ArtistId)
    (a' : ArtistProfile) (x : ArtistId) :
    ratedSessions (setArtistRatings st aid a') x = ratedSessions st x := rfl

/-- Saving an artist document whose id matches the slot it replaces preserves
the list of artist ids. -/
lemma setArtistRatings_map_id (st : St) (aid : ArtistId) (a' : ArtistProfile)
    (h : a'.id = aid) :
    (setArtistRatings st aid a').artists.map ArtistProfile.id =
      st.artists.map ArtistProfile.id := by
  unfold setArtistRatings
  rw [List.map_map]
  apply List.map_congr_left
  intro a _
  by_cases hc : a.id = aid <;> simp [hc, h]

/-- One rate call preserves store well-formedness and the aggregate
invariant: early failures keep the store; the artist-missing Internal
failure changes only a session whose artist has no document; the success
path recomputes the touched artist's aggregate from the post-write store
while every other artist's rated population is untouched. -/
lemma rateSession_preserves (st : St) (caller : Caller) (sid : SessionId)
    (score : ℚ) (review : Option String) (now : ℚ)
    (hwf : WfState st) (hinv : ratingsInvariant st) :
    WfState (rateSession st caller sid score review now).1 ∧
    ratingsInvariant (rateSession st caller sid score review now).1 := by
  unfold rateSession rateSessionF
  by_cases hscore : score < 1 ∨ score > 5
  · rw [if_pos hscore]
    exact ⟨hwf, hinv⟩
  rw [if_neg hscore]
  cases hfind : findSession st sid with
  | none =>
    simp only [hfind]
    exact ⟨hwf, hinv⟩
  | some session =>
    simp only [hfind]
    by_cases huser : session.user ≠ caller.id
    · rw [if_pos huser]
      exact ⟨hwf, hinv⟩
    rw [if_neg huser]
    by_cases hstatus : session.status ≠ SessionStatus.completed
    · rw [if_pos hstatus]
      exact ⟨hwf, hinv⟩
    rw [if_neg hstatus]
    simp only [Bool.true_eq_false, if_false]
    have hwf1 : WfState (setRating st sid score review now) := by
      constructor
      · rw [setRating_map_id]
        exact hwf.1
      · rw [setRating_artists]
        exact hwf.2
    cases hart : findArtistById (setRating st sid score review now) session.artist with
    | none =>
      simp only [hart]
      refine ⟨hwf1, ?_⟩
      intro a ha
      have haSt : a ∈ st.artists := by
        rw [setRating_artists] at ha
        exact ha
      have hane : a.id ≠ session.artist := findArtistById_none hart a ha
      have hrs : ratedSessions (setRating st sid score review now) a.id =
          ratedSessions st a.id :=
        ratedSessions_setRating_ne st sid score review now hwf.1 hfind
          (fun he => hane he.symm)
      have hold := hinv a haSt
      unfold aggregateCorrect at hold ⊢
      rw [hrs]
      exact hold
    | some artist =>
      simp only [hart]
      obtain ⟨hartmem1, hartid⟩ := findArtistById_spec hart
      constructor
      · constructor
        · rw [setArtistRatings_sessions, setRating_map_id]
          exact hwf.1
        · rw [setArtistRatings_map_id, setRating_artists]
          · exact hwf.2
          · rfl
      · intro a' ha'
        rw [setArtistRatings_artists, setRating_artists] at ha'
        rcases List.mem_map.mp ha' with ⟨a, haSt, rfl⟩
        by_cases hid : a.id = artist.id
        · simp only [if_pos hid]
          unfold aggregateCorrect
          rw [ratedSessions_setArtistRatings]
          simp only [hartid]
          exact ⟨trivial, trivial⟩
        · simp only [if_neg hid]
          have hane : a.id ≠ session.artist := by
            rw [← hartid]
            exact hid
          have hrs : ratedSessions (setRating st sid score review now) a.id =
              ratedSessions st a.id :=
            ratedSessions_setRating_ne st sid score review now hwf.1 hfind
              (fun he => hane he.symm)
          have holdinv := hinv a haSt
          unfold aggregateCorrect at holdinv ⊢
          rw [ratedSessions_setArtistRatings, hrs]
          exact holdinv

/-- C2: starting from a well-formed store in which every artist document
carries the invariant aggregate, after any sequence of rateSession
operations every artist document still has ratings.count equal to the number
of its SessionRecords with a rating present and ratings.average equal to
their mean rounded to one decimal place (Math.round to a tenth). -/
theorem applyRateSeq_ratings_invariant (ops : List RateReq) (st : St)
    (hwf : WfState st) (hinv : ratingsInvariant st) :
    ratingsInvariant (applyRateSeq st ops) := by
  induction ops generalizing st with
  | nil => exact hinv
  | cons op rest ih =>
    have h := rateSession_preserves st op.caller op.sid op.score op.review
      op.now hwf hinv
    exact ih _ h.1 h.2

/-- Rating the two completed sessions 4 then 5 keeps the invariant; the
artist aggregate ends at average 4.5, count 2. -/
theorem applyRateSeq_ratings_invariant_witness :
    WfState c2St ∧ ratingsInvariant c2St ∧
    ratingsInvariant (applyRateSeq c2St c2Ops) := by
  have hwf : WfState c2St := ⟨by decide, by decide⟩
  have hinv : ratingsInvariant c2St := by
    intro a ha
    have ha2 : a ∈ [(⟨1, 100, (⟨0, 0⟩ : Ratings)⟩ : ArtistProfile)] := ha
    have ha3 : a = ⟨1, 100, ⟨0, 0⟩⟩ := by simpa using ha2
    subst ha3
    constructor
    · rfl
    · show (0 : ℚ) = round1 (ratingScoreSum (ratedSessions c2St 1) /
        ((ratedSessions c2St 1).length : ℚ))
      rw [(rfl : ratedSessions c2St 1 = [])]
      show (0 : ℚ) = round1 (0 / ((0 : ℕ) : ℚ))
      rw [round1_eq (0 / ((0 : ℕ) : ℚ)) 0 (by norm_num) (by norm_num)]
      norm_num
  exact ⟨hwf, hinv, applyRateSeq_ratings_invariant c2Ops c2St hwf hinv⟩

end ArtCult
